import Mathlib

/-!
Verification development for the XClamAV settings store, quarantine manager
and scanner command builder (`src/settings.py`, `src/xclamav.py`).

The Python code is shallowly embedded:
* JSON values (the contents of `settings.json` and of the in-memory settings
  mapping) become the inductive type `JValue`; Python dictionaries become
  association lists with unique keys, with `dict` assignment modelled by
  `setKey` (replace in place if the key is present, append otherwise — the
  insertion-order semantics of Python dicts).
* The pieces of the filesystem the quarantine manager touches become the
  explicit state `FS` (files outside the quarantine directory, files inside
  it keyed by file name, and the set of directories created so far).
* `pathlib` name arithmetic (`Path.name`, `Path.stem`, `Path.suffix`,
  `Path.with_suffix`) is modelled character-for-character: the suffix of a
  name starts at its last dot provided that dot is neither the first nor the
  last character of the name.
* Fallible operations return `Option`/`Except`; machine integers do not
  occur (sizes are `Nat`, times are `Int` seconds).
-/

namespace XClamAV

/-- A JSON value, as produced by Python's `json.load` (numbers restricted to
integers, which is all the settings schema uses). -/
inductive JValue where
  | null
  | bool (b : Bool)
  | num (n : Int)
  | str (s : String)
  | arr (elems : List JValue)
  | obj (entries : List (String × JValue))
deriving Repr, Inhabited

/-- A Python dictionary with string keys, as an insertion-ordered association
list.  Dictionaries reaching the settings code have unique keys. -/
abbrev Dict := List (String × JValue)

/-- `d[k]` / `d.get(k)`: the value at the first (in a real dict, only)
occurrence of key `k`. -/
def lookupKey {α : Type} : List (String × α) → String → Option α
  | [], _ => none
  | (k', v) :: rest, k => if k' = k then some v else lookupKey rest k

/-- The key list of a dictionary, in insertion order. -/
def keys {α : Type} (d : List (String × α)) : List String := d.map Prod.fst

/-- `k in d`. -/
def hasKey {α : Type} (d : List (String × α)) (k : String) : Bool :=
  (lookupKey d k).isSome

/-- `d[k] = v`: replace the value at an existing key in place, otherwise
append the new binding at the end (Python dict assignment). -/
def setKey {α : Type} : List (String × α) → String → α → List (String × α)
  | [], k, v => [(k, v)]
  | (k', v') :: rest, k, v =>
    if k' = k then (k, v) :: rest else (k', v') :: setKey rest k v

/-- `del d[k]` / `unlink`-style removal of a key (no-op when absent). -/
def removeKey {α : Type} (d : List (String × α)) (k : String) : List (String × α) :=
  d.filter (fun p => p.1 ≠ k)

mutual

/-- `XClamAVSettings._merge_settings(default, loaded)`: start from a copy of
`default`; for each `key, value` in `loaded`, store `mergeVal` of the value
already present (if any) and the loaded value. -/
def mergeObj : Dict → Dict → Dict
  | result, [] => result
  | result, (k, v) :: rest =>
    mergeObj (setKey result k (mergeVal (lookupKey result k) v)) rest
termination_by _ l => sizeOf l

/-- One step of `_merge_settings`: when the key is already present with a
dictionary value and the loaded value is also a dictionary, merge recursively;
otherwise the loaded value wins. -/
def mergeVal : Option JValue → JValue → JValue
  | some (.obj dd), .obj dl => .obj (mergeObj dd dl)
  | _, v => v
termination_by _ v => sizeOf v

end

/-- Whether a JSON value is a dictionary. -/
def isObjVal : JValue → Bool
  | .obj _ => true
  | _ => false

/-- Every category value of the mapping is a dictionary none of whose own
values is again a dictionary (true of the hard-coded defaults: all leaves are
booleans, numbers, strings or lists). -/
def flatCategories (d : Dict) : Bool :=
  d.all (fun p =>
    match p.2 with
    | .obj m => m.all (fun q => !isObjVal q.2)
    | _ => true)

/-- Quarantine path default: `str(Path.home() / ".local" / "share" / "xclamav"
/ "quarantine")`, parameterised by the home directory. -/
def default_quarantine_path (home : String) : String :=
  home ++ "/.local/share/xclamav/quarantine"

/-- The hard-coded `default_settings` mapping built at the start of
`XClamAVSettings.load_settings`. -/
def default_settings (home : String) : Dict :=
  [("scan_options", .obj
      [("scan_archives", .bool true), ("scan_pdf", .bool true),
       ("scan_ole2", .bool true), ("scan_html", .bool true),
       ("scan_pe", .bool true), ("scan_elf", .bool true),
       ("detect_pua", .bool false), ("scan_hidden", .bool false),
       ("max_file_size", .num 20), ("max_recursion", .num 15)]),
   ("real_time", .obj
      [("enabled", .bool false), ("watch_downloads", .bool true),
       ("watch_home", .bool false), ("watch_removable", .bool true),
       ("prevention_mode", .bool false)]),
   ("updates", .obj
      [("auto_update", .bool true), ("update_frequency", .str "daily"),
       ("check_on_startup", .bool true)]),
   ("notifications", .obj
      [("show_scan_complete", .bool true), ("show_threats_found", .bool true),
       ("show_update_complete", .bool false), ("system_tray", .bool true)]),
   ("quarantine", .obj
      [("auto_quarantine", .bool true),
       ("quarantine_path", .str (default_quarantine_path home)),
       ("retention_days", .num 30)]),
   ("interface", .obj
      [("start_minimized", .bool false), ("close_to_tray", .bool true),
       ("dark_mode", .str "auto"), ("language", .str "auto")]),
   ("exclusions", .obj
      [("paths", .arr []),
       ("extensions", .arr [.str ".tmp", .str ".log"]),
       ("processes", .arr [])]),
   ("advanced", .obj
      [("scan_threads", .num 4), ("memory_limit", .num 512),
       ("database_mirror", .str "auto"), ("log_level", .str "info")])]

/-- The settings file as the loader sees it: `none` when the file does not
exist, `some (.error e)` when reading or parsing raises, `some (.ok j)` when
`json.load` returns the value `j`. -/
abbrev SettingsFile := Option (Except String JValue)

/-- `XClamAVSettings.load_settings` (the part after building the defaults):
merge an existing, parseable settings object into the defaults; on a missing
file, a read/parse error, or a parsed value that is not a dictionary (where
`loaded_settings.items()` raises inside the same `try`), fall back to the
defaults. -/
def load_settings (home : String) (file : SettingsFile) : Dict :=
  match file with
  | none => default_settings home
  | some (.error _) => default_settings home
  | some (.ok (.obj loaded)) => mergeObj (default_settings home) loaded
  | some (.ok _) => default_settings home

/-- `XClamAVSettings.get(category)` (no key): `self.settings.get(category, {})`. -/
def pyGetCat (s : Dict) (category : String) : JValue :=
  (lookupKey s category).getD (.obj [])

/-- `XClamAVSettings.get(category, key)`:
`self.settings.get(category, {}).get(key)`.  When the category's stored value
is not a dictionary, the second `.get` raises `AttributeError`, modelled as
`.error ()`; an absent key yields Python `None`, modelled as `.ok .null`. -/
def pyGetKey (s : Dict) (category key : String) : Except Unit JValue :=
  match pyGetCat s category with
  | .obj m => .ok ((lookupKey m key).getD .null)
  | _ => .error ()

/-- `XClamAVSettings.set(category, key, value)` acting on the in-memory
mapping: insert an empty dictionary when the category is absent, then assign
the key.  When the category holds a non-dictionary value the item assignment
raises (`none`); `save_settings` then persists the returned mapping verbatim. -/
def pySet (s : Dict) (category key : String) (value : JValue) : Option Dict :=
  match lookupKey s category with
  | none => some (setKey s category (.obj (setKey ([] : Dict) key value)))
  | some (.obj m) => some (setKey s category (.obj (setKey m key value)))
  | some _ => none

/-! ## Scanner command builder (`src/xclamav.py`) -/

/-- Python truthiness of a JSON value, as tested by `if options.get(...)`. -/
def pyTruthy : JValue → Bool
  | .null => false
  | .bool b => b
  | .num n => n ≠ 0
  | .str s => s ≠ ""
  | .arr l => !l.isEmpty
  | .obj l => !l.isEmpty

/-- Python `repr` of a JSON value (string escaping inside nested containers is
not modelled; the command builder only ever renders numbers). -/
def pyRepr : JValue → String
  | .null => "None"
  | .bool b => if b then "True" else "False"
  | .num n => toString n
  | .str s => "'" ++ s ++ "'"
  | .arr l => "[" ++ String.intercalate ", " (l.attach.map (fun x => pyRepr x.1)) ++ "]"
  | .obj l =>
      "\x7b" ++
        String.intercalate ", "
          (l.attach.map (fun x => "'" ++ x.1.1 ++ "': " ++ pyRepr x.1.2)) ++
      "\x7d"
termination_by v => sizeOf v
decreasing_by
  all_goals simp_wf
  · have h := List.sizeOf_lt_of_mem x.2
    simp_arith at h ⊢
    omega
  · have h := List.sizeOf_lt_of_mem x.2
    have h2 : sizeOf (x.1).2 < sizeOf x.1 := by
      obtain ⟨⟨a, b⟩, hx⟩ := x
      simp_arith
    simp_arith at h h2 ⊢
    omega

/-- Python `str` as used by f-string interpolation: the raw text for strings,
`repr` for everything else. -/
def pyStr : JValue → String
  | .str s => s
  | v => pyRepr v

/-- `dict.get(k, default)`. -/
def optValue (opts : Dict) (k : String) (dflt : JValue) : JValue :=
  (lookupKey opts k).getD dflt

/-- `ClamAVWrapper.build_scan_command(path)`, with `scan_options` (the
settings' `scan_options` category) passed explicitly. -/
def build_scan_command (scan_options : Dict) (path : String) : List String :=
  let cmd := ["clamscan"]
  let cmd := cmd ++
    [if pyTruthy (optValue scan_options "scan_archives" (.bool true))
     then "--scan-archive=yes" else "--scan-archive=no"]
  let cmd := cmd ++
    [if pyTruthy (optValue scan_options "scan_pdf" (.bool true))
     then "--scan-pdf=yes" else "--scan-pdf=no"]
  let cmd := cmd ++
    [if pyTruthy (optValue scan_options "scan_ole2" (.bool true))
     then "--scan-ole2=yes" else "--scan-ole2=no"]
  let cmd := cmd ++
    [if pyTruthy (optValue scan_options "scan_html" (.bool true))
     then "--scan-html=yes" else "--scan-html=no"]
  let cmd := cmd ++
    [if pyTruthy (optValue scan_options "scan_pe" (.bool true))
     then "--scan-pe=yes" else "--scan-pe=no"]
  let cmd := cmd ++
    [if pyTruthy (optValue scan_options "scan_elf" (.bool true))
     then "--scan-elf=yes" else "--scan-elf=no"]
  let cmd := cmd ++
    [if pyTruthy (optValue scan_options "detect_pua" (.bool false))
     then "--detect-pua=yes" else "--detect-pua=no"]
  let cmd :=
    if pyTruthy (optValue scan_options "scan_hidden" (.bool false))
    then cmd else cmd ++ ["--exclude-dir=^\\."]
  let max_size := optValue scan_options "max_file_size" (.num 20)
  let cmd := cmd ++ ["--max-filesize=" ++ pyStr max_size ++ "M"]
  let max_recursion := optValue scan_options "max_recursion" (.num 15)
  let cmd := cmd ++ ["--max-dir-recursion=" ++ pyStr max_recursion]
  cmd ++ ["--recursive", "--infected", "--bell", path]

/-- The claim-side rendering of one yes/no scanner flag. -/
def ynFlag (name : String) (b : Bool) : String :=
  name ++ "=" ++ (if b then "yes" else "no")

/-- The mutable fields of `ClamAVWrapper` that `scan_path` touches. -/
structure ClamAVWrapper where
  scanning : Bool
  scan_process : Option Nat
  scan_options : Dict

/-- `ClamAVWrapper.scan_path` up to the point where the method returns:
when a scan is already in flight it returns `False` immediately; otherwise it
sets `scanning`, starts the worker thread and returns `True`.  The result is
`(state at return, returned value, state observed by the worker at thread
start if one was launched)`. -/
def scan_path (w : ClamAVWrapper) : ClamAVWrapper × Bool × Option ClamAVWrapper :=
  if w.scanning then (w, false, none)
  else
    let w1 : ClamAVWrapper := { w with scanning := true }
    (w1, true, some w1)

/-! ## `pathlib` name arithmetic

`PurePath.suffix` is `name[i:]` where `i` is the index of the last dot of the
final path component, provided `0 < i < len(name) - 1`; otherwise the suffix
is empty.  `stem` is the name with the suffix removed, and
`with_suffix(s)` replaces the suffix with `s`. -/

/-- Split a character list at every `/` (the semantics of
`String.splitOn "/"`, restated by structural recursion). -/
def splitOnSlash : List Char → List (List Char)
  | [] => [[]]
  | c :: rest =>
    match splitOnSlash rest with
    | [] => [[]]
    | cur :: others => if c = '/' then [] :: cur :: others else (c :: cur) :: others

/-- `s.endswith(suffix)` (also the `glob("*.info")` membership test, since
`fnmatch` translates `*.info` to `.*\.info`, matching exactly the names with
that ending — hidden files included). -/
def strEndsWith (s suffix : String) : Bool :=
  suffix.toList.isSuffixOf s.toList

/-- `Path(p).name`: the last non-empty `/`-separated component. -/
def baseName (p : String) : String :=
  ((((splitOnSlash p.toList).map String.mk).filter (fun c => c ≠ "")).getLastD "")

/-- Index at which the `pathlib` suffix of a file name starts, if any. -/
def suffixStart (name : String) : Option Nat :=
  let cs := name.toList
  (((List.range cs.length).filter (fun i => cs.getD i ' ' = '.')).getLast?).bind
    (fun i => if 0 < i ∧ i + 1 < cs.length then some i else none)

/-- `Path(name).stem`. -/
def pathStem (name : String) : String :=
  match suffixStart name with
  | some i => String.mk (name.toList.take i)
  | none => name

/-- `Path(name).with_suffix(suffix)` for the suffixes the code uses
(`'.info'` and `''`). -/
def withSuffix (name suffix : String) : String :=
  pathStem name ++ suffix

/-- `Path(p).parent` rendered as a string (for the normalised absolute and
relative paths the quarantine manager handles). -/
def parentPath (p : String) : String :=
  let comps := (splitOnSlash p.toList).map String.mk
  if comps.length ≤ 1 then "."
  else
    let par := String.intercalate "/" comps.dropLast
    if par = "" then "/" else par

/-! ## Quarantine manager filesystem model -/

/-- The sidecar metadata written by `quarantine_file`. -/
structure QInfo where
  original_path : String
  threat_name : String
  quarantine_date : String
  file_size : Nat
deriving Repr, DecidableEq

/-- A file as the quarantine manager can observe it: an opaque data file of
some size, or a readable JSON metadata file.  (The byte size of a metadata
file is never observed and is not modelled.) -/
inductive QEntry where
  | data (size : Nat)
  | meta (info : QInfo)
deriving Repr, DecidableEq

/-- `st_size` of a file (only ever evaluated on data files). -/
def entrySize : QEntry → Nat
  | .data size => size
  | .meta _ => 0

/-- A quarantine-directory file together with its filesystem modification
time (`st_mtime`, in whole seconds). -/
structure QFile where
  entry : QEntry
  mtime : Int
deriving Repr, DecidableEq

/-- The filesystem state the quarantine manager manipulates: files outside
the quarantine directory keyed by full path, files inside it keyed by file
name, and the directories created so far. -/
structure FS where
  outside : List (String × QEntry)
  quar : List (String × QFile)
  dirs : List String
deriving Repr, DecidableEq

/-- `QuarantineManager.quarantine_file(source_path, threat_name)`.
`timestamp` is `datetime.now().strftime("%Y%m%d_%H%M%S")` and `now` the
current time in seconds (the mtime given to the files written).  Returns the
new filesystem and the method's boolean result. -/
def quarantine_file (fs : FS) (timestamp : String) (now : Int)
    (source_path threat_name : String) : FS × Bool :=
  match lookupKey fs.outside source_path with
  | none => (fs, false)
  | some entry =>
    let quarantine_name := timestamp ++ "_" ++ baseName source_path ++ "_" ++ threat_name
    let outside1 := removeKey fs.outside source_path
    let quar1 := setKey fs.quar quarantine_name ⟨entry, now⟩
    let file_size :=
      match lookupKey quar1 quarantine_name with
      | some qf => entrySize qf.entry
      | none => 0
    let info : QInfo :=
      { original_path := source_path, threat_name := threat_name,
        quarantine_date := timestamp, file_size := file_size }
    let info_name := withSuffix quarantine_name ".info"
    let quar2 := setKey quar1 info_name ⟨.meta info, now⟩
    ({ fs with outside := outside1, quar := quar2 }, true)

/-- `QuarantineManager.list_quarantined_files()`: for every `*.info` file
that parses as metadata, report the metadata together with the path obtained
by stripping the suffix, provided a file of that name exists.  (The Python
code stores that path in the returned dict under `quarantine_file`; here it
is the second component of the pair.) -/
def list_quarantined_files (fs : FS) : List (QInfo × String) :=
  fs.quar.filterMap (fun p =>
    if strEndsWith p.1 ".info" then
      match p.2.entry with
      | .meta info =>
        let quarantine_name := withSuffix p.1 ""
        match lookupKey fs.quar quarantine_name with
        | some _ => some (info, quarantine_name)
        | none => none
      | .data _ => none
    else none)

/-- `QuarantineManager.restore_file(quarantine_file, original_path)` with the
quarantined file given by its name in the quarantine directory.  The parent
directory of the destination is created before the rename; a missing
quarantined file makes the rename raise, which is caught and reported as
`False`. -/
def restore_file (fs : FS) (quarantine_name original_path : String) : FS × Bool :=
  let par := parentPath original_path
  let dirs1 := if par ∈ fs.dirs then fs.dirs else par :: fs.dirs
  match lookupKey fs.quar quarantine_name with
  | none => ({ fs with dirs := dirs1 }, false)
  | some qf =>
    let outside1 := setKey fs.outside original_path qf.entry
    let quar1 := removeKey fs.quar quarantine_name
    let info_name := withSuffix quarantine_name ".info"
    let quar2 := removeKey quar1 info_name
    ({ outside := outside1, quar := quar2, dirs := dirs1 }, true)

/-- `QuarantineManager.delete_quarantined_file(quarantine_file)`: unlink the
file and its `with_suffix('.info')` companion when they exist. -/
def delete_quarantined_file (fs : FS) (quarantine_name : String) : FS × Bool :=
  let info_name := withSuffix quarantine_name ".info"
  ({ fs with quar := removeKey (removeKey fs.quar quarantine_name) info_name }, true)

/-- `QuarantineManager.cleanup_old_files()`.  `retention_days` is the value
of `settings.get("quarantine", "retention_days")` and `now` the current time
in seconds.  Every `*.info` file whose mtime is strictly older than
`now - retention_days` days is passed (with its suffix stripped) to
`delete_quarantined_file`; a sidecar already deleted by an earlier iteration
makes `stat` raise, which is caught and skipped. -/
def cleanup_old_files (fs : FS) (retention_days now : Int) : FS :=
  let cutoff := now - retention_days * 86400
  let sidecars := (fs.quar.filter (fun p => strEndsWith p.1 ".info")).map Prod.fst
  sidecars.foldl (fun acc s =>
    match lookupKey acc.quar s with
    | none => acc
    | some qf =>
      if qf.mtime < cutoff then (delete_quarantined_file acc (withSuffix s "")).1
      else acc) fs

/-! ## Association-list lemmas -/

theorem keys_cons {α : Type} (p : String × α) (d : List (String × α)) :
    keys (p :: d) = p.1 :: keys d := rfl

theorem lookup_setKey_self {α : Type} (d : List (String × α)) (k : String) (v : α) :
    lookupKey (setKey d k v) k = some v := by
  induction d with
  | nil => simp [setKey, lookupKey]
  | cons p rest ih =>
    obtain ⟨a, b⟩ := p
    by_cases h : a = k
    · subst h; simp [setKey, lookupKey]
    · simp [setKey, lookupKey, h, ih]

theorem lookup_setKey_ne {α : Type} (d : List (String × α)) {k k' : String} (v : α)
    (h : k' ≠ k) : lookupKey (setKey d k v) k' = lookupKey d k' := by
  induction d with
  | nil => simp [setKey, lookupKey, Ne.symm h]
  | cons p rest ih =>
    obtain ⟨a, b⟩ := p
    by_cases hp : a = k
    · subst hp
      simp [setKey, lookupKey, Ne.symm h]
    · simp only [setKey, if_neg hp, lookupKey]
      by_cases hp' : a = k' <;> simp [hp', ih]

theorem lookup_removeKey_self {α : Type} (d : List (String × α)) (k : String) :
    lookupKey (removeKey d k) k = none := by
  induction d with
  | nil => simp [removeKey, lookupKey]
  | cons p rest ih =>
    obtain ⟨a, b⟩ := p
    by_cases h : a = k
    · simp_all [removeKey, List.filter_cons, h]
    · simp_all [removeKey, List.filter_cons, h, lookupKey]

theorem lookup_removeKey_ne {α : Type} (d : List (String × α)) {k k' : String}
    (h : k' ≠ k) : lookupKey (removeKey d k) k' = lookupKey d k' := by
  induction d with
  | nil => simp [removeKey, lookupKey]
  | cons p rest ih =>
    obtain ⟨a, b⟩ := p
    by_cases hp : a = k
    · subst hp
      simp_all [removeKey, List.filter_cons, lookupKey, Ne.symm h]
    · by_cases hp' : a = k' <;>
        simp_all [removeKey, List.filter_cons, hp, lookupKey]

theorem lookup_mem {α : Type} {d : List (String × α)} {k : String} {v : α}
    (h : lookupKey d k = some v) : (k, v) ∈ d := by
  induction d with
  | nil => simp [lookupKey] at h
  | cons p rest ih =>
    obtain ⟨a, b⟩ := p
    by_cases hp : a = k
    · subst hp
      simp [lookupKey] at h
      simp [h]
    · simp [lookupKey, hp] at h
      simp [ih h]

theorem lookup_isSome_iff_mem_keys {α : Type} (d : List (String × α)) (k : String) :
    (lookupKey d k).isSome ↔ k ∈ keys d := by
  induction d with
  | nil => simp [lookupKey, keys]
  | cons p rest ih =>
    obtain ⟨a, b⟩ := p
    rw [keys_cons, List.mem_cons]
    by_cases h : a = k
    · subst h; simp [lookupKey]
    · simp [lookupKey, h, ih, Ne.symm h]

theorem lookup_eq_none_of_not_mem_keys {α : Type} {d : List (String × α)} {k : String}
    (h : k ∉ keys d) : lookupKey d k = none := by
  have h2 := (lookup_isSome_iff_mem_keys d k).not.mpr h
  cases hd : lookupKey d k <;> simp_all

theorem keys_setKey {α : Type} (d : List (String × α)) (k : String) (v : α) :
    keys (setKey d k v) = if hasKey d k then keys d else keys d ++ [k] := by
  induction d with
  | nil => simp [setKey, keys, hasKey, lookupKey]
  | cons p rest ih =>
    obtain ⟨a, b⟩ := p
    by_cases h : a = k
    · subst h
      simp [setKey, hasKey, lookupKey, keys_cons]
    · rw [setKey, if_neg h, keys_cons, keys_cons, ih]
      have hh : hasKey ((a, b) :: rest) k = hasKey rest k := by
        simp [hasKey, lookupKey, h]
      rw [hh]
      by_cases hk : hasKey rest k <;> simp [hk]

theorem mem_keys_setKey {α : Type} (d : List (String × α)) (k a : String) (v : α) :
    a ∈ keys (setKey d k v) ↔ a ∈ keys d ∨ a = k := by
  rw [keys_setKey]
  by_cases hk : hasKey d k <;> simp [hk]
  intro ha
  subst ha
  exact (lookup_isSome_iff_mem_keys d a).mp (by simpa [hasKey] using hk)

theorem nodup_keys_setKey {α : Type} (d : List (String × α)) (k : String) (v : α)
    (h : (keys d).Nodup) : (keys (setKey d k v)).Nodup := by
  rw [keys_setKey]
  by_cases hk : hasKey d k
  · simp [hk, h]
  · have hnotmem : k ∉ keys d := by
      intro hmem
      have h2 := (lookup_isSome_iff_mem_keys d k).mpr hmem
      simp [hasKey] at hk
      simp_all
    simp [hk, List.nodup_append, h, hnotmem]

/-! ## Merge lemmas -/

theorem mergeObj_nil (d : Dict) : mergeObj d [] = d := by
  simp [mergeObj]

theorem mergeObj_cons (d : Dict) (k : String) (v : JValue) (rest : Dict) :
    mergeObj d ((k, v) :: rest) =
      mergeObj (setKey d k (mergeVal (lookupKey d k) v)) rest := by
  simp [mergeObj]

theorem mergeVal_obj (dd dl : Dict) :
    mergeVal (some (.obj dd)) (.obj dl) = .obj (mergeObj dd dl) := by
  simp [mergeVal]

theorem mergeVal_of_not_obj (o : Option JValue) {v : JValue}
    (hv : ∀ l, v ≠ .obj l) : mergeVal o v = v := by
  rcases o with _ | w
  · cases v <;> simp [mergeVal]
  · cases w <;> cases v <;> first | exact absurd rfl (hv _) | simp [mergeVal]

theorem mergeVal_of_left_not_obj {o : Option JValue} (v : JValue)
    (h : ∀ dd, o ≠ some (.obj dd)) : mergeVal o v = v := by
  rcases o with _ | w
  · cases v <;> simp [mergeVal]
  · cases w <;> cases v <;> first | exact absurd rfl (h _) | simp [mergeVal]

theorem lookup_mergeObj (l : Dict) : ∀ (d : Dict) (k : String), (keys l).Nodup →
    lookupKey (mergeObj d l) k =
      match lookupKey l k with
      | none => lookupKey d k
      | some v => some (mergeVal (lookupKey d k) v) := by
  induction l with
  | nil =>
    intro d k _
    simp [mergeObj_nil, lookupKey]
  | cons p rest ih =>
    intro d k hnd
    obtain ⟨k1, v1⟩ := p
    rw [keys_cons] at hnd
    have hk1 : k1 ∉ keys rest := (List.nodup_cons.mp hnd).1
    have hrest : (keys rest).Nodup := (List.nodup_cons.mp hnd).2
    rw [mergeObj_cons]
    by_cases hk : k1 = k
    · subst hk
      have hnone : lookupKey rest k1 = none := lookup_eq_none_of_not_mem_keys hk1
      rw [ih _ _ hrest, hnone]
      simp [lookupKey, lookup_setKey_self]
    · have hcons : lookupKey ((k1, v1) :: rest) k = lookupKey rest k := by
        simp [lookupKey, hk]
      have hd' : lookupKey (setKey d k1 (mergeVal (lookupKey d k1) v1)) k
          = lookupKey d k :=
        lookup_setKey_ne d _ (Ne.symm hk)
      rw [ih _ _ hrest, hcons]
      cases hr : lookupKey rest k with
      | none => simp [hd']
      | some v => simp [hd']

theorem mem_keys_mergeObj_left {l : Dict} {d : Dict} {k : String}
    (hnd : (keys l).Nodup) (h : k ∈ keys d) : k ∈ keys (mergeObj d l) := by
  rw [← lookup_isSome_iff_mem_keys] at h ⊢
  rw [lookup_mergeObj l d k hnd]
  cases hr : lookupKey l k <;> simp_all

theorem mem_keys_mergeObj_right {l : Dict} {d : Dict} {k : String}
    (hnd : (keys l).Nodup) (h : k ∈ keys l) : k ∈ keys (mergeObj d l) := by
  rw [← lookup_isSome_iff_mem_keys] at h ⊢
  rw [lookup_mergeObj l d k hnd]
  cases hr : lookupKey l k <;> simp_all

theorem defaults_flatCategories (home : String) :
    flatCategories (default_settings home) = true := rfl

theorem flat_lookup_not_obj {d : Dict} (hd : flatCategories d = true)
    {c : String} {dd : Dict} (hc : lookupKey d c = some (.obj dd))
    (k : String) : ∀ m, lookupKey dd k ≠ some (.obj m) := by
  intro m hm
  have hmem := lookup_mem hc
  have hall := (List.all_eq_true.mp hd) _ hmem
  simp only at hall
  have hmem2 := lookup_mem hm
  have h2 := (List.all_eq_true.mp hall) _ hmem2
  simp [isObjVal] at h2

/-! ## Claim theorems: settings store -/

/-- Claim C1: for every loaded settings dictionary (with the unique keys any
dictionary produced by `json.load` has), merging it against the hard-coded
default mapping yields a dictionary containing every key of the defaults;
nested dictionaries are merged recursively; a key present in both with a
non-dictionary loaded value takes the loaded value; and keys present only in
the loaded dictionary are preserved in the result. -/
theorem merge_settings_defaults (home : String) (loaded : Dict)
    (hnd : (keys loaded).Nodup) :
    (∀ k, k ∈ keys (default_settings home) →
        k ∈ keys (mergeObj (default_settings home) loaded)) ∧
    (∀ k dd dl, lookupKey (default_settings home) k = some (.obj dd) →
        lookupKey loaded k = some (.obj dl) →
        lookupKey (mergeObj (default_settings home) loaded) k
          = some (.obj (mergeObj dd dl))) ∧
    (∀ k v, lookupKey loaded k = some v → (∀ l, v ≠ .obj l) →
        lookupKey (mergeObj (default_settings home) loaded) k = some v) ∧
    (∀ k, k ∈ keys loaded → k ∈ keys (mergeObj (default_settings home) loaded)) := by
  refine ⟨fun k hk => mem_keys_mergeObj_left hnd hk, ?_, ?_,
    fun k hk => mem_keys_mergeObj_right hnd hk⟩
  · intro k dd dl hdef hload
    rw [lookup_mergeObj loaded _ k hnd, hload]
    simp [hdef, mergeVal_obj]
  · intro k v hload hv
    rw [lookup_mergeObj loaded _ k hnd, hload]
    simp [mergeVal_of_not_obj _ hv]

/-- Witness for C1 at a concrete partial settings file. -/
theorem merge_settings_defaults_witness :
    (keys [("scan_options", JValue.obj [("scan_pdf", JValue.bool false)])]).Nodup ∧
    "quarantine" ∈ keys (mergeObj (default_settings "/home/user")
      [("scan_options", JValue.obj [("scan_pdf", JValue.bool false)])]) :=
  ⟨by decide,
   (merge_settings_defaults "/home/user"
       [("scan_options", JValue.obj [("scan_pdf", JValue.bool false)])]
       (by decide)).1 "quarantine" (by simp [default_settings, keys])⟩

/-- Claim C2: `set(category, key, value)` on a (well-formed) settings store,
followed by constructing a fresh store — which loads the persisted file and
merges it with the defaults — yields `get(category, key)` equal to the value
that was set. -/
theorem set_then_reload (home : String) (s s' : Dict) (category key : String)
    (value : JValue)
    (hset : pySet s category key value = some s')
    (hnd : (keys s).Nodup)
    (hcat : ∀ m, lookupKey s category = some (.obj m) → (keys m).Nodup) :
    pyGetKey (load_settings home (some (.ok (.obj s')))) category key = .ok value := by
  have main : ∀ m : Dict, (keys m).Nodup →
      s' = setKey s category (.obj (setKey m key value)) →
      pyGetKey (load_settings home (some (.ok (.obj s')))) category key
        = .ok value := by
    intro m hmnd hs'
    subst hs'
    have hnd' : (keys (setKey s category (.obj (setKey m key value)))).Nodup :=
      nodup_keys_setKey _ _ _ hnd
    have hlook : lookupKey (setKey s category (.obj (setKey m key value))) category
        = some (.obj (setKey m key value)) := lookup_setKey_self _ _ _
    have hmerge : lookupKey
        (mergeObj (default_settings home) (setKey s category (.obj (setKey m key value))))
        category
        = some (mergeVal (lookupKey (default_settings home) category)
            (.obj (setKey m key value))) := by
      rw [lookup_mergeObj _ _ _ hnd', hlook]
    have hmmnd : (keys (setKey m key value)).Nodup := nodup_keys_setKey _ _ _ hmnd
    have hmmk : lookupKey (setKey m key value) key = some value :=
      lookup_setKey_self _ _ _
    show pyGetKey (mergeObj (default_settings home) _) category key = .ok value
    by_cases hobj : ∃ dd, lookupKey (default_settings home) category = some (.obj dd)
    · obtain ⟨dd, hD⟩ := hobj
      rw [hD, mergeVal_obj] at hmerge
      have hflat := flat_lookup_not_obj (defaults_flatCategories home) hD key
      have hin : lookupKey (mergeObj dd (setKey m key value)) key
          = some (mergeVal (lookupKey dd key) value) := by
        rw [lookup_mergeObj _ _ _ hmmnd, hmmk]
      rw [mergeVal_of_left_not_obj value (fun dd' h' => hflat dd' h')] at hin
      simp [pyGetKey, pyGetCat, hmerge, hin]
    · rw [mergeVal_of_left_not_obj _ (fun dd h => hobj ⟨dd, h⟩)] at hmerge
      simp [pyGetKey, pyGetCat, hmerge, hmmk]
  unfold pySet at hset
  rcases hsc : lookupKey s category with _ | w
  · rw [hsc] at hset
    simp only [Option.some.injEq] at hset
    exact main [] (by simp [keys]) hset.symm
  · rw [hsc] at hset
    cases w with
    | obj m =>
      simp only [Option.some.injEq] at hset
      exact main m (hcat m hsc) hset.symm
    | null => simp at hset
    | bool b => simp at hset
    | num n => simp at hset
    | str t => simp at hset
    | arr l => simp at hset

/-- Witness for C2: set `scan_options.scan_pdf` to `false` on an empty store
and read it back through a fresh load. -/
theorem set_then_reload_witness :
    pySet [] "scan_options" "scan_pdf" (JValue.bool false)
      = some [("scan_options", JValue.obj [("scan_pdf", JValue.bool false)])] ∧
    pyGetKey (load_settings "/home/user" (some (.ok (.obj
        [("scan_options", JValue.obj [("scan_pdf", JValue.bool false)])]))))
      "scan_options" "scan_pdf" = .ok (JValue.bool false) :=
  ⟨rfl,
   set_then_reload "/home/user" [] _ "scan_options" "scan_pdf" (JValue.bool false)
     rfl (by simp [keys]) (fun m h => nomatch h)⟩

/-- Claim C8: a read or parse error while loading the settings file does not
propagate: the in-memory settings become the default settings (the same holds
for a parsed value that is not a dictionary, where the merge itself raises
inside the same `try`, and for a missing file).  `load_settings` is a total
function, so no error escapes. -/
theorem load_settings_error_fallback (home e : String) (j : JValue)
    (hj : ∀ l, j ≠ .obj l) :
    load_settings home (some (.error e)) = default_settings home ∧
    load_settings home (some (.ok j)) = default_settings home ∧
    load_settings home none = default_settings home := by
  refine ⟨rfl, ?_, rfl⟩
  cases j <;> first | exact absurd rfl (hj _) | rfl

/-- Witness for C8 at a concrete error and a concrete non-dictionary file. -/
theorem load_settings_error_fallback_witness :
    load_settings "/home/user" (some (.error "boom")) = default_settings "/home/user" ∧
    load_settings "/home/user" (some (.ok (JValue.num 3))) = default_settings "/home/user" ∧
    load_settings "/home/user" none = default_settings "/home/user" :=
  load_settings_error_fallback "/home/user" "boom" (JValue.num 3) (fun _ h => nomatch h)

/-- Counterexample to claim C10 as stated: `get` can raise.  On a store whose
category holds a non-dictionary value (reachable by loading a settings file
such as `{"a": 5}`), `get("a", "k")` evaluates `5.get("k")` and raises
`AttributeError`. -/
theorem get_nondict_category_raises :
    pyGetKey [("a", JValue.num 5)] "a" "k" = .error () := rfl

/-- Claim C10 (amended): `get` is read-only (it is a pure function of the
store) and total as long as every category it is asked about is absent or
holds a dictionary: `get(category)` on an absent category returns the empty
mapping, `get(category, key)` on an absent category or absent key returns
`None`, and under that proviso `get` never raises; it does raise
`AttributeError` when the category holds a non-dictionary value. -/
theorem get_total_on_mapping_categories (s : Dict) (category key : String) :
    (lookupKey s category = none →
       pyGetCat s category = .obj [] ∧ pyGetKey s category key = .ok .null) ∧
    (∀ m, lookupKey s category = some (.obj m) →
       pyGetCat s category = .obj m ∧
       (lookupKey m key = none → pyGetKey s category key = .ok .null) ∧
       ∃ v, pyGetKey s category key = .ok v) := by
  constructor
  · intro h
    simp [pyGetCat, pyGetKey, h, lookupKey]
  · intro m h
    refine ⟨by simp [pyGetCat, h], ?_, ?_⟩
    · intro hk
      simp [pyGetKey, pyGetCat, h, hk]
    · exact ⟨(lookupKey m key).getD .null, by simp [pyGetKey, pyGetCat, h]⟩

/-- Witness for the amended C10 on a concrete store. -/
theorem get_total_on_mapping_categories_witness :
    pyGetCat [("scan_options", JValue.obj [])] "updates" = .obj [] ∧
    pyGetKey [("scan_options", JValue.obj [])] "scan_options" "scan_pdf"
      = .ok .null :=
  ⟨((get_total_on_mapping_categories [("scan_options", JValue.obj [])]
      "updates" "k").1 rfl).1,
   (((get_total_on_mapping_categories [("scan_options", JValue.obj [])]
      "scan_options" "scan_pdf").2 [] rfl).2).1 rfl⟩

/-! ## Claim theorems: scanner wrapper -/

/-- Claim C5: for every scan-options mapping and target path, the clamscan
command list carries `--scan-archive`, `--scan-pdf`, `--scan-ole2`,
`--scan-html`, `--scan-pe`, `--scan-elf` and `--detect-pua` set to yes or no
exactly according to the corresponding toggle (defaults: the six scan toggles
true, `detect_pua` false), contains the hidden-file `--exclude-dir` exclusion
exactly when `scan_hidden` is false, carries the configured `--max-filesize`
and `--max-dir-recursion` limits (defaults 20 MB and 15), and ends with
`--recursive`, `--infected`, `--bell` and the target path, in that order. -/
theorem build_scan_command_flags (opts : Dict) (path : String) :
    build_scan_command opts path =
      ["clamscan",
       ynFlag "--scan-archive" (pyTruthy (optValue opts "scan_archives" (.bool true))),
       ynFlag "--scan-pdf" (pyTruthy (optValue opts "scan_pdf" (.bool true))),
       ynFlag "--scan-ole2" (pyTruthy (optValue opts "scan_ole2" (.bool true))),
       ynFlag "--scan-html" (pyTruthy (optValue opts "scan_html" (.bool true))),
       ynFlag "--scan-pe" (pyTruthy (optValue opts "scan_pe" (.bool true))),
       ynFlag "--scan-elf" (pyTruthy (optValue opts "scan_elf" (.bool true))),
       ynFlag "--detect-pua" (pyTruthy (optValue opts "detect_pua" (.bool false)))]
      ++ (if pyTruthy (optValue opts "scan_hidden" (.bool false)) then []
          else ["--exclude-dir=^\\."])
      ++ ["--max-filesize=" ++ pyStr (optValue opts "max_file_size" (.num 20)) ++ "M",
          "--max-dir-recursion=" ++ pyStr (optValue opts "max_recursion" (.num 15)),
          "--recursive", "--infected", "--bell", path] := by
  unfold build_scan_command
  cases pyTruthy (optValue opts "scan_archives" (.bool true)) <;>
    cases pyTruthy (optValue opts "scan_pdf" (.bool true)) <;>
    cases pyTruthy (optValue opts "scan_ole2" (.bool true)) <;>
    cases pyTruthy (optValue opts "scan_html" (.bool true)) <;>
    cases pyTruthy (optValue opts "scan_pe" (.bool true)) <;>
    cases pyTruthy (optValue opts "scan_elf" (.bool true)) <;>
    cases pyTruthy (optValue opts "detect_pua" (.bool false)) <;>
    cases pyTruthy (optValue opts "scan_hidden" (.bool false)) <;>
    simp [ynFlag]

/-- Claim C9: at most one scan runs at a time, in the per-call sense the code
realises: when the `scanning` flag is already set, `scan_path` returns
`False` with the wrapper state unchanged and no worker launched; when it is
clear, the flag is set and the worker thread is started with the flag already
true (concurrent interleavings between the flag test and the flag write are
outside this sequential model, as the spec itself notes). -/
theorem scan_path_single_scan (w : ClamAVWrapper) :
    (w.scanning = true → scan_path w = (w, false, none)) ∧
    (w.scanning = false →
       scan_path w = ({ w with scanning := true }, true,
                      some { w with scanning := true })) := by
  constructor <;> intro h <;> simp [scan_path, h]

/-- Witness for C9 at concrete wrapper states. -/
theorem scan_path_single_scan_witness :
    scan_path ⟨true, none, []⟩ = (⟨true, none, []⟩, false, none) ∧
    scan_path ⟨false, none, []⟩ = (⟨true, none, []⟩, true, some ⟨true, none, []⟩) :=
  ⟨(scan_path_single_scan ⟨true, none, []⟩).1 rfl,
   (scan_path_single_scan ⟨false, none, []⟩).2 rfl⟩

/-! ## Claim theorems: quarantine manager -/

/-- Claim C3, evaluated at the failing input: quarantining
`/home/user/virus.exe` (any original file name with an extension) moves the
file to `20240101_120000_virus.exe_Trojan` as claimed, but
`with_suffix('.info')` replaces the `.exe_Trojan` suffix, so the sidecar is
named `20240101_120000_virus.info`; listing then strips the sidecar's suffix
and looks for `20240101_120000_virus`, which does not exist, so the
quarantined file is never listed — contradicting the claim that listing via
the sidecar finds the quarantined file again. -/
theorem quarantine_listing_bug :
    (quarantine_file ⟨[("/home/user/virus.exe", .data 123)], [], []⟩
        "20240101_120000" 0 "/home/user/virus.exe" "Trojan").2 = true ∧
    lookupKey (quarantine_file ⟨[("/home/user/virus.exe", .data 123)], [], []⟩
        "20240101_120000" 0 "/home/user/virus.exe" "Trojan").1.quar
        "20240101_120000_virus.exe_Trojan" = some ⟨.data 123, 0⟩ ∧
    lookupKey (quarantine_file ⟨[("/home/user/virus.exe", .data 123)], [], []⟩
        "20240101_120000" 0 "/home/user/virus.exe" "Trojan").1.quar
        "20240101_120000_virus.info"
      = some ⟨.meta ⟨"/home/user/virus.exe", "Trojan", "20240101_120000", 123⟩, 0⟩ ∧
    list_quarantined_files (quarantine_file
        ⟨[("/home/user/virus.exe", .data 123)], [], []⟩
        "20240101_120000" 0 "/home/user/virus.exe" "Trojan").1 = [] := by
  decide

/-- Claim C4, evaluated at the failing inputs: a retention sweep with a 0-day
window over a quarantine entry created from `virus.exe` deletes only the
sidecar `20240101_120000_virus.info` and leaves the quarantined data file
`20240101_120000_virus.exe_Trojan` behind (the suffix-stripped name the sweep
deletes does not exist), and for a sidecar with a dotted stem such as
`x_archive.tar.info` not even the sidecar is deleted — contradicting the
claim that the sweep deletes every entry older than the window.  On dot-free
names the sweep behaves as claimed: mtime strictly older than the cutoff
deletes both files, a large window deletes nothing. -/
theorem cleanup_retention_bug :
    (cleanup_old_files
        ⟨[], [("20240101_120000_virus.exe_Trojan", ⟨.data 123, 0⟩),
              ("20240101_120000_virus.info",
               ⟨.meta ⟨"/home/user/virus.exe", "Trojan", "20240101_120000", 123⟩, 0⟩)],
            []⟩ 0 1000).quar
      = [("20240101_120000_virus.exe_Trojan", ⟨.data 123, 0⟩)] ∧
    (cleanup_old_files
        ⟨[], [("x_archive.tar.info",
               ⟨.meta ⟨"/home/user/archive.tar", "Trojan", "x", 9⟩, 0⟩)], []⟩
        0 1000).quar
      = [("x_archive.tar.info",
          ⟨.meta ⟨"/home/user/archive.tar", "Trojan", "x", 9⟩, 0⟩)] ∧
    (cleanup_old_files
        ⟨[], [("x_virus_Trojan", ⟨.data 5, 0⟩),
              ("x_virus_Trojan.info",
               ⟨.meta ⟨"/home/user/virus", "Trojan", "x", 5⟩, 0⟩)], []⟩ 0 1000).quar
      = [] ∧
    (cleanup_old_files
        ⟨[], [("x_virus_Trojan", ⟨.data 5, 0⟩),
              ("x_virus_Trojan.info",
               ⟨.meta ⟨"/home/user/virus", "Trojan", "x", 5⟩, 0⟩)], []⟩ 30 1000).quar
      = [("x_virus_Trojan", ⟨.data 5, 0⟩),
         ("x_virus_Trojan.info",
          ⟨.meta ⟨"/home/user/virus", "Trojan", "x", 5⟩, 0⟩)] := by
  decide

/-- Claim C6: a successful `restore_file` renames the quarantined file back
to the original path (creating the original's parent directory), removes the
associated `.info` sidecar, and returns `True`; afterwards the file exists at
the original path and neither the quarantined file nor the sidecar exists in
the quarantine directory. -/
theorem restore_file_spec (fs : FS) (quarantine_name original_path : String)
    (qf : QFile) (h : lookupKey fs.quar quarantine_name = some qf) :
    (restore_file fs quarantine_name original_path).2 = true ∧
    lookupKey (restore_file fs quarantine_name original_path).1.outside original_path
      = some qf.entry ∧
    lookupKey (restore_file fs quarantine_name original_path).1.quar
      (withSuffix quarantine_name ".info") = none ∧
    lookupKey (restore_file fs quarantine_name original_path).1.quar quarantine_name
      = none ∧
    parentPath original_path ∈ (restore_file fs quarantine_name original_path).1.dirs := by
  have e : restore_file fs quarantine_name original_path
      = ({ outside := setKey fs.outside original_path qf.entry,
           quar := removeKey (removeKey fs.quar quarantine_name)
                     (withSuffix quarantine_name ".info"),
           dirs := if parentPath original_path ∈ fs.dirs then fs.dirs
                   else parentPath original_path :: fs.dirs }, true) := by
    unfold restore_file
    rw [h]
  rw [e]
  refine ⟨rfl, lookup_setKey_self _ _ _, lookup_removeKey_self _ _, ?_, ?_⟩
  · by_cases hq : quarantine_name = withSuffix quarantine_name ".info"
    · rw [← hq]
      exact lookup_removeKey_self _ _
    · rw [lookup_removeKey_ne _ hq]
      exact lookup_removeKey_self _ _
  · by_cases hd : parentPath original_path ∈ fs.dirs <;> simp [hd]

/-- Witness for C6 on a concrete quarantine entry. -/
theorem restore_file_spec_witness :
    (restore_file
        ⟨[], [("x_f_T", ⟨.data 3, 0⟩),
              ("x_f_T.info", ⟨.meta ⟨"/home/user/f", "T", "x", 3⟩, 0⟩)], []⟩
        "x_f_T" "/home/user/f").2 = true ∧
    lookupKey (restore_file
        ⟨[], [("x_f_T", ⟨.data 3, 0⟩),
              ("x_f_T.info", ⟨.meta ⟨"/home/user/f", "T", "x", 3⟩, 0⟩)], []⟩
        "x_f_T" "/home/user/f").1.outside "/home/user/f"
      = some (.data 3) :=
  ⟨(restore_file_spec
      ⟨[], [("x_f_T", ⟨.data 3, 0⟩),
            ("x_f_T.info", ⟨.meta ⟨"/home/user/f", "T", "x", 3⟩, 0⟩)], []⟩
      "x_f_T" "/home/user/f" ⟨.data 3, 0⟩ (by decide)).1,
   (restore_file_spec
      ⟨[], [("x_f_T", ⟨.data 3, 0⟩),
            ("x_f_T.info", ⟨.meta ⟨"/home/user/f", "T", "x", 3⟩, 0⟩)], []⟩
      "x_f_T" "/home/user/f" ⟨.data 3, 0⟩ (by decide)).2.1⟩

/-- Counterexample to claim C7 as stated: when the threat name makes the
quarantine name itself end in a `.info` suffix (here threat `Doc.info`), the
sidecar path computed by `with_suffix('.info')` equals the quarantined file's
own path, so writing the sidecar overwrites the moved file: the call still
returns `True` and records `file_size = 5`, but the quarantine directory ends
up holding only the sidecar — there is no moved file whose `st_size` the
recorded size could equal. -/
theorem quarantine_size_overwrite_cex :
    (quarantine_file ⟨[("/home/user/payload", .data 5)], [], []⟩
        "20240101_120000" 0 "/home/user/payload" "Doc.info").2 = true ∧
    (quarantine_file ⟨[("/home/user/payload", .data 5)], [], []⟩
        "20240101_120000" 0 "/home/user/payload" "Doc.info").1.quar
      = [("20240101_120000_payload_Doc.info",
          ⟨.meta ⟨"/home/user/payload", "Doc.info", "20240101_120000", 5⟩, 0⟩)] := by
  decide

/-- Claim C7 (amended): after every successful `quarantine_file` call on a
file of known size, the sidecar's recorded `file_size` equals the size of the
file at the quarantine destination, provided the sidecar name differs from
the quarantine name (equivalently, the quarantine name's `pathlib` suffix is
not itself `.info`, in which case the sidecar write overwrites the moved
file). -/
theorem quarantine_recorded_size (fs : FS) (timestamp : String) (now : Int)
    (source_path threat_name : String) (sz : Nat)
    (hsrc : lookupKey fs.outside source_path = some (.data sz))
    (hname : withSuffix (timestamp ++ "_" ++ baseName source_path ++ "_" ++ threat_name)
        ".info" ≠ timestamp ++ "_" ++ baseName source_path ++ "_" ++ threat_name) :
    (quarantine_file fs timestamp now source_path threat_name).2 = true ∧
    lookupKey (quarantine_file fs timestamp now source_path threat_name).1.quar
        (withSuffix (timestamp ++ "_" ++ baseName source_path ++ "_" ++ threat_name)
          ".info")
      = some ⟨.meta ⟨source_path, threat_name, timestamp, sz⟩, now⟩ ∧
    lookupKey (quarantine_file fs timestamp now source_path threat_name).1.quar
        (timestamp ++ "_" ++ baseName source_path ++ "_" ++ threat_name)
      = some ⟨.data sz, now⟩ := by
  have e : quarantine_file fs timestamp now source_path threat_name
      = ({ outside := removeKey fs.outside source_path,
           quar := setKey
             (setKey fs.quar
               (timestamp ++ "_" ++ baseName source_path ++ "_" ++ threat_name)
               ⟨.data sz, now⟩)
             (withSuffix (timestamp ++ "_" ++ baseName source_path ++ "_" ++ threat_name)
               ".info")
             ⟨.meta ⟨source_path, threat_name, timestamp, sz⟩, now⟩,
           dirs := fs.dirs }, true) := by
    unfold quarantine_file
    rw [hsrc]
    dsimp only
    rw [lookup_setKey_self]
    rfl
  rw [e]
  refine ⟨rfl, lookup_setKey_self _ _ _, ?_⟩
  rw [lookup_setKey_ne _ _ (Ne.symm hname)]
  exact lookup_setKey_self _ _ _

/-- Witness for the amended C7 on a dot-free quarantine name. -/
theorem quarantine_recorded_size_witness :
    (quarantine_file ⟨[("/home/user/f", .data 7)], [], []⟩
        "20240101_120000" 0 "/home/user/f" "Eicar").2 = true ∧
    lookupKey (quarantine_file ⟨[("/home/user/f", .data 7)], [], []⟩
        "20240101_120000" 0 "/home/user/f" "Eicar").1.quar
        "20240101_120000_f_Eicar.info"
      = some ⟨.meta ⟨"/home/user/f", "Eicar", "20240101_120000", 7⟩, 0⟩ ∧
    lookupKey (quarantine_file ⟨[("/home/user/f", .data 7)], [], []⟩
        "20240101_120000" 0 "/home/user/f" "Eicar").1.quar
        "20240101_120000_f_Eicar" = some ⟨.data 7, 0⟩ := by
  have h := quarantine_recorded_size ⟨[("/home/user/f", .data 7)], [], []⟩
    "20240101_120000" 0 "/home/user/f" "Eicar" 7 rfl (by decide)
  exact ⟨h.1, h.2.1, h.2.2⟩

end XClamAV
